import Mathlib

/-!
Verification of the session/authorization resolver and the invoice issuance
orchestration of the dashboard repository, via a shallow embedding of the
TypeScript source into Lean.

Conventions of the embedding:
* Network collaborators (Supabase queries, the invoicing REST API) are pure
  inputs: each operation's possible responses are modelled as an inductive
  value handed to the embedded function, and the embedded function returns,
  besides the new UI state, how many times each collaborator was invoked.
* JavaScript numbers are modelled as exact rationals.
* JS `Set` is modelled as `Finset String`; JS `null`/`undefined` as `Option`.
* Exceptions are modelled with `Except`; an async function that catches all
  errors and returns normally is modelled as a function that always returns
  a value (the caught error appears only in its console-log output).
-/

namespace Dashboard

/-- A row of the `roles` relation joined through `user_roles`
(`src/context/UserContext.tsx`, type `SupabaseFetchedRolesData`). -/
structure RoleEntry where
  id : Nat
  role_name : String
deriving DecidableEq, Repr

/-- One row returned by `supabase.from('user_roles').select('roles(id, role_name)')`.
The joined `roles` object may be absent (the source guards with `?.`). -/
structure UserRoleRow where
  roles : Option RoleEntry
deriving DecidableEq, Repr

/-- A Supabase/PostgREST error object (fields `code` and `message`). -/
structure DbError where
  code : String
  message : String
deriving DecidableEq, Repr

/-- The collaborator responses available to one run of
`fetchUserAndRolesAndPermissions`: the authenticated user returned by
`supabase.auth.getUser()`, the result of the `user_roles` query, and the
result of the `resource_permissions` query (resource paths of rows with
`can_access = true`). -/
structure FetchEnv where
  authUser : Option Nat
  userRolesResult : Except DbError (List UserRoleRow)
  permissionsResult : Except DbError (List String)

/-- The React state held by `UserProvider` (`user`, `roles`, `permissions`,
`loading` in `src/context/UserContext.tsx`). -/
structure UserState where
  user : Option Nat
  roles : Option (List String)
  permissions : Option (Finset String)
  loading : Bool
deriving DecidableEq

/-- The initial `UserProvider` state: `useState(null)` three times and
`useState(true)` for `loading`. -/
def initialUserState : UserState :=
  { user := none, roles := none, permissions := none, loading := true }

/-- Everything one call of `fetchUserAndRolesAndPermissions` produces: the
final React state, the `console.error`/`console.warn` lines it printed, the
error its returned promise rejects with (the function has a catch-all, so
this is what the caller can actually observe of a failure), and how many
role / permission queries it issued. -/
structure ResolveOutcome where
  state : UserState
  consoleErrors : List String
  surfaced : Option DbError
  roleFetches : Nat
  permFetches : Nat

/-- The role names extracted from the raw `user_roles` rows:
`userRolesData.map(item => item.roles?.role_name).filter(Boolean)`.
`filter(Boolean)` drops both missing values and empty strings. -/
def extractRoleNames (rows : List UserRoleRow) : List String :=
  (rows.filterMap fun r => r.roles.map (·.role_name)).filter (fun s => s ≠ "")

/-- The role ids extracted from the raw `user_roles` rows:
`userRolesData.map(item => item.roles?.id).filter(Boolean)`.
`filter(Boolean)` on numbers drops `0` as well as missing values. -/
def extractRoleIds (rows : List UserRoleRow) : List Nat :=
  (rows.filterMap fun r => r.roles.map (·.id)).filter (fun i => i ≠ 0)

/-- The root-path policy applied to the fetched permission paths:
`if (fetchedPermissions.size > 0) fetchedPermissions.add('/')`. -/
def addRootIfNonempty (s : Finset String) : Finset String :=
  if 0 < s.card then insert "/" s else s

/-- Shallow embedding of `fetchUserAndRolesAndPermissions`
(`src/context/UserContext.tsx`). The source is an async function with a
try/catch(all)/finally; mutations (`setUser` etc.) that happened before a
thrown fetch error persist, the catch block then sets `roles` and
`permissions` to `null` and only logs the error, and `finally` clears
`loading`. The returned promise never rejects, hence `surfaced := none`
on every path. -/
def fetchUserAndRolesAndPermissions (env : FetchEnv) (st : UserState) :
    ResolveOutcome :=
  let st0 : UserState := { st with loading := true }
  match env.authUser with
  | none =>
    -- no authenticated user: setRoles(null); setPermissions(null)
    let final : UserState :=
      { st0 with user := none, roles := none, permissions := none, loading := false }
    { state := final,
      consoleErrors := [], surfaced := none, roleFetches := 0, permFetches := 0 }
  | some uid =>
    let st1 : UserState := { st0 with user := some uid }
    match env.userRolesResult with
    | .error e =>
      -- `throw userRolesError` lands in the catch block
      { state := { st1 with roles := none, permissions := none, loading := false },
        consoleErrors := ["Error fetching user roles: " ++ e.message,
                          "Global error fetching user, roles, or permissions: " ++ e.message],
        surfaced := none, roleFetches := 1, permFetches := 0 }
    | .ok rows =>
      let fetchedRoles := extractRoleNames rows
      let st2 : UserState := { st1 with roles := some fetchedRoles }
      if fetchedRoles = [] then
        -- `else` branch of `if (fetchedRoles.length > 0)`
        { state := { st2 with permissions := some ∅, loading := false },
          consoleErrors := [], surfaced := none, roleFetches := 1, permFetches := 0 }
      else
        let roleIds := extractRoleIds rows
        if roleIds = [] then
          -- early return with an empty permission set and a console.warn
          { state := { st2 with permissions := some ∅, loading := false },
            consoleErrors := ["No role IDs found for user, setting empty permissions."],
            surfaced := none, roleFetches := 1, permFetches := 0 }
        else
          match env.permissionsResult with
          | .error e =>
            -- `throw permissionsError` lands in the catch block
            { state := { st2 with roles := none, permissions := none, loading := false },
              consoleErrors := ["Error fetching permissions: " ++ e.message,
                                "Global error fetching user, roles, or permissions: " ++ e.message],
              surfaced := none, roleFetches := 1, permFetches := 1 }
          | .ok paths =>
            let final : UserState :=
              { st2 with permissions := some (addRootIfNonempty paths.toFinset), loading := false }
            { state := final,
              consoleErrors := [], surfaced := none, roleFetches := 1, permFetches := 1 }

/-- Shallow embedding of the `onAuthStateChange` callback body in
`UserProvider`. Inputs: the event name, the session's user id (if any) and
the current state. Output: the state after the callback's synchronous
updates, together with the number of times it invoked
`fetchUserAndRolesAndPermissions` (the invoked resolution itself is modelled
separately). -/
def onAuthStateChange (event : String) (sessionUser : Option Nat)
    (st : UserState) : UserState × Nat :=
  match sessionUser with
  | some suid =>
    if event = "SIGNED_IN" ∧ st.user = some suid then
      -- session revalidation: update the user object only, no re-fetch
      ({ st with user := some suid, loading := false }, 0)
    else
      -- real user change: setUser then a full fetchUserAndRolesAndPermissions()
      ({ st with user := some suid }, 1)
  | none =>
    let cleared : UserState :=
      { st with user := none, roles := none, permissions := none, loading := false }
    (cleared, 0)

/-- One synchronous React state update performed by `UserProvider`
(`setLoading`, `setUser`, `setRoles`, `setPermissions`). -/
inductive Action where
  | setLoading (b : Bool)
  | setUser (u : Option Nat)
  | setRoles (r : Option (List String))
  | setPermissions (p : Option (Finset String))
deriving DecidableEq

/-- Effect of a single state update. -/
def applyAction (st : UserState) (a : Action) : UserState :=
  match a with
  | .setLoading b => { st with loading := b }
  | .setUser u => { st with user := u }
  | .setRoles r => { st with roles := r }
  | .setPermissions p => { st with permissions := p }

/-- Run a list of state updates in order. -/
def runActions (st : UserState) (l : List Action) : UserState :=
  l.foldl applyAction st

/-- The same `fetchUserAndRolesAndPermissions` run, cut into the maximal
synchronous segments between its `await` points (after `getUser`, after the
`user_roles` query, after the `resource_permissions` query). Between two
segments of one run, other event-loop tasks may execute; within a segment
nothing can interleave. -/
def resolveSegments (env : FetchEnv) : List (List Action) :=
  match env.authUser with
  | none =>
    [[.setLoading true],
     [.setUser none, .setRoles none, .setPermissions none, .setLoading false]]
  | some uid =>
    match env.userRolesResult with
    | .error _ =>
      [[.setLoading true],
       [.setUser (some uid)],
       [.setRoles none, .setPermissions none, .setLoading false]]
    | .ok rows =>
      let fetchedRoles := extractRoleNames rows
      if fetchedRoles = [] then
        [[.setLoading true],
         [.setUser (some uid)],
         [.setRoles (some fetchedRoles), .setPermissions (some ∅), .setLoading false]]
      else
        let roleIds := extractRoleIds rows
        if roleIds = [] then
          [[.setLoading true],
           [.setUser (some uid)],
           [.setRoles (some fetchedRoles), .setPermissions (some ∅), .setLoading false]]
        else
          match env.permissionsResult with
          | .error _ =>
            [[.setLoading true],
             [.setUser (some uid)],
             [.setRoles (some fetchedRoles)],
             [.setRoles none, .setPermissions none, .setLoading false]]
          | .ok paths =>
            [[.setLoading true],
             [.setUser (some uid)],
             [.setRoles (some fetchedRoles)],
             [.setPermissions (some (addRootIfNonempty paths.toFinset)),
              .setLoading false]]

/-- The segment trace of the `onAuthStateChange` callback for a sign-in of
user `u` that differs from the current user: the callback synchronously runs
`setUser(session.user)` and then calls `fetchUserAndRolesAndPermissions()`,
which executes synchronously up to its first `await`; so `setUser u` fuses
with the first resolve segment. -/
def authChangeSegments (u : Nat) (env : FetchEnv) : List (List Action) :=
  match resolveSegments env with
  | [] => [[.setUser (some u)]]
  | s :: rest => (.setUser (some u) :: s) :: rest

/-- Event-loop interleaving of two task traces: `Interleave xs ys zs` holds
when `zs` is a merge of `xs` and `ys` preserving the order of each. -/
inductive Interleave : List (List Action) → List (List Action) →
    List (List Action) → Prop where
  | nil : Interleave [] [] []
  | left {x : List Action} {xs ys zs : List (List Action)} :
      Interleave xs ys zs → Interleave (x :: xs) ys (x :: zs)
  | right {y : List Action} {xs ys zs : List (List Action)} :
      Interleave xs ys zs → Interleave xs (y :: ys) (y :: zs)

/-- Embedding of the authorization check performed by `ProtectedRoute`
(`src/components/ProtectedRoute.tsx`): `permissions?.has(resourcePath) ?? false`. -/
def isAuthorized (resourcePath : String) (permissionSet : Option (Finset String)) :
    Bool :=
  match permissionSet with
  | none => false
  | some s => resourcePath ∈ s

/-- What `ProtectedRoute` renders. -/
inductive RouteView where
  | loadingView
  | redirectAuth
  | accessDenied
  | content
deriving DecidableEq

/-- Embedding of the `ProtectedRoute` component body: loading spinner while
`loading`, redirect to `/auth` without a user, otherwise the guarded content
or the fixed access-denied notice. -/
def protectedRoute (resourcePath : String) (st : UserState) : RouteView :=
  if st.loading then .loadingView
  else
    match st.user with
    | none => .redirectAuth
    | some _ =>
      if isAuthorized resourcePath st.permissions then .content else .accessDenied

/-- Model of `Number.prototype.toFixed(2)` followed by `parseFloat`, over
exact rationals: round to the nearest multiple of 1/100, ties toward the
larger value (ECMA-262 picks the larger candidate on a tie). -/
def toFixed2 (x : ℚ) : ℚ :=
  (⌊x * 100 + 1 / 2⌋ : ℚ) / 100

/-- Embedding of `calculateBaseValue` (`src/components/invoicing/BoletaForm.tsx`):
strips the IGV tax from a tax-inclusive total. Note the source returns the
input unchanged (without rounding) when `igvPercentage === 0`. -/
def calculateBaseValue (totalPrice igvPercentage : ℚ) : ℚ :=
  if igvPercentage = 0 then totalPrice
  else
    let igvRate := igvPercentage / 100
    let baseValue := totalPrice / (1 + igvRate)
    toFixed2 baseValue

/-- Modelled from the spec: the numeric policy sentence
"base = total / (1 + taxPercent/100), rounded to 2 decimal places",
with no case split on the tax percentage. Used only to compare the source's
`calculateBaseValue` against the spec's formula. -/
def specBaseValue (totalPrice taxPercent : ℚ) : ℚ :=
  toFixed2 (totalPrice / (1 + taxPercent / 100))

/-- The client data of the boleta form (`Client` in `src/lib/types/invoicing.ts`). -/
structure Client where
  id : Option Nat
  tipo_documento : String
  numero_documento : String
  razon_social : String
  nombre_comercial : String
  direccion : String
  ubigeo : String
  distrito : String
  provincia : String
  departamento : String
  telefono : String
  email : String
deriving DecidableEq, Repr

/-- One line item of the boleta form (`DetalleSchema` in
`src/lib/types/invoicing.ts`). -/
structure Detalle where
  codigo : String
  descripcion : String
  unidad : String
  cantidad : ℚ
  mto_valor_unitario : ℚ
  porcentaje_igv : ℚ
  tip_afe_igv : String
  codigo_producto_sunat : String
deriving DecidableEq, Repr

/-- The boleta form values (`BoletaFormValues` in `src/lib/types/invoicing.ts`). -/
structure BoletaFormValues where
  serie : String
  fecha_emision : String
  moneda : String
  tipo_operacion : String
  metodo_envio : String
  forma_pago_tipo : String
  usuario_creacion : String
  client : Client
  detalles : List Detalle
deriving DecidableEq, Repr

/-- The payload sent to `POST /boletas` (`BoletaPayload`). -/
structure BoletaPayload extends BoletaFormValues where
  company_id : Nat
  branch_id : Nat
deriving DecidableEq, Repr

/-- Approximation of the format test done by `z.string().email()`: a single
`@` separating a nonempty local part from a nonempty domain. No claim in
this development depends on the exact email grammar; the form's default
email is the empty string, which zod accepts via `.or(z.literal(''))`. -/
def emailFormatOk (s : String) : Bool :=
  match s.splitOn "@" with
  | [local_, domain] => local_ ≠ "" ∧ domain ≠ ""
  | _ => false

/-- The field-level messages produced by `ClientSchema` on a client value. -/
def clientErrors (c : Client) : List String :=
  (if 1 ≤ c.tipo_documento.length then [] else ["Tipo de documento es requerido."]) ++
  (if 8 ≤ c.numero_documento.length then []
   else ["Número de documento debe tener al menos 8 caracteres."]) ++
  (if 3 ≤ c.razon_social.length then [] else ["Razón social es requerida."]) ++
  (if 5 ≤ c.direccion.length then [] else ["Dirección es requerida."]) ++
  (if c.email = "" ∨ emailFormatOk c.email then [] else ["Email inválido."])

/-- The field-level messages produced by `DetalleSchema` on one line item.
`cantidad` must be at least `0.01`; `porcentaje_igv` carries zod's default
message for `min(0)`. -/
def detalleErrors (d : Detalle) : List String :=
  (if 1 ≤ d.descripcion.length then [] else ["Descripción es requerida."]) ++
  (if 1 ≤ d.unidad.length then [] else ["Unidad es requerida."]) ++
  (if 1 / 100 ≤ d.cantidad then [] else ["Cantidad debe ser mayor a 0."]) ++
  (if 0 ≤ d.mto_valor_unitario then [] else ["Precio debe ser 0 o mayor."]) ++
  (if 0 ≤ d.porcentaje_igv then []
   else ["Number must be greater than or equal to 0"]) ++
  (if 1 ≤ d.tip_afe_igv.length then [] else ["Tipo de afectación IGV es requerido."])

/-- The field-level messages produced by `BoletaPayloadSchema` (as used by
the form resolver, i.e. with `company_id`/`branch_id` omitted). -/
def boletaErrors (b : BoletaFormValues) : List String :=
  clientErrors b.client ++
  (if 1 ≤ b.detalles.length then [] else ["Debe haber al menos un detalle."]) ++
  (b.detalles.map detalleErrors).flatten

/-- A row of `socio_titulares` as selected by `fetchClientByDocument`. -/
structure SocioRow where
  id : Nat
  dni : String
  nombres : String
  apellidoPaterno : String
  apellidoMaterno : String
  direccionDNI : Option String
  direccionVivienda : Option String
  distritoDNI : Option String
  distritoVivienda : Option String
  provinciaDNI : Option String
  provinciaVivienda : Option String
  regionDNI : Option String
  regionVivienda : Option String
  celular : Option String
deriving DecidableEq, Repr

/-- Possible outcomes of the `.single()` Supabase query in
`fetchClientByDocument`: a row, no rows (PostgREST error code `PGRST116`,
which the source treats as a normal miss), or a database failure. -/
inductive DbSingleResult where
  | row (r : SocioRow)
  | noRows
  | failure (code message : String)
deriving DecidableEq, Repr

/-- JS `a || b || ''` over two nullable strings: empty strings are falsy. -/
def firstNonEmpty (a b : Option String) : String :=
  match a with
  | some s => if s = "" then (b.getD "") else s
  | none => b.getD ""

/-- The `Client` built from a `socio_titulares` row in `fetchClientByDocument`. -/
def clientOfSocio (r : SocioRow) : Client :=
  { id := some r.id,
    tipo_documento := "1",
    numero_documento := r.dni,
    razon_social := (r.nombres ++ " " ++ r.apellidoPaterno ++ " " ++ r.apellidoMaterno).trim,
    nombre_comercial := (r.nombres ++ " " ++ r.apellidoPaterno).trim,
    direccion := firstNonEmpty r.direccionDNI r.direccionVivienda,
    ubigeo := "",
    distrito := firstNonEmpty r.distritoDNI r.distritoVivienda,
    provincia := firstNonEmpty r.provinciaDNI r.provinciaVivienda,
    departamento := firstNonEmpty r.regionDNI r.regionVivienda,
    telefono := r.celular.getD "",
    email := "" }

/-- Shallow embedding of `fetchClientByDocument`
(`src/lib/api/invoicingApi.ts`). Besides the result it returns the number
of database queries issued. A thrown database error is rethrown by the
function's own catch block with a second `Error de base de datos:` prefix,
which the embedding reproduces. -/
def fetchClientByDocument (docNumber : String) (db : DbSingleResult) :
    Except String (Option Client) × Nat :=
  if docNumber = "" ∨ docNumber.length < 8 then
    (.ok none, 0)
  else
    match db with
    | .noRows => (.ok none, 1)
    | .row r => (.ok (some (clientOfSocio r)), 1)
    | .failure _ message =>
      (.error ("Error de base de datos: " ++ ("Error de base de datos: " ++ message)), 1)

/-- The `data` object of a well-formed issuance response
(`IssueResponseSchema` in `src/lib/types/invoicing.ts`). -/
structure IssueData where
  id : Int
  numero_completo : String
deriving DecidableEq, Repr

/-- A body matching `IssueResponseSchema`: `{success, message, data:{id,
numero_completo}}`. -/
structure IssueResponse where
  success : Bool
  message : String
  data : IssueData
deriving DecidableEq, Repr

/-- A successful-status response body, before schema validation: either it
matches `IssueResponseSchema` or it does not (in which case `parse` throws a
`ZodError` whose message is `desc`). -/
inductive RespBody where
  | wellFormed (r : IssueResponse)
  | malformed (desc : String)
deriving DecidableEq, Repr

/-- Outcome of the `POST /boletas` call as axios presents it: a 2xx response
with a body; an error status whose response body may carry a `message`
field (`raw` is `JSON.stringify` of the body, used when `message` is
absent); or a failure with no response at all (network error). -/
inductive PostResult where
  | success (body : RespBody)
  | httpError (message : Option String) (raw : String)
  | networkError (message : String)
deriving DecidableEq, Repr

/-- Shallow embedding of `issueBoleta` (`src/lib/api/invoicingApi.ts`).
The function validates a 2xx body against `IssueResponseSchema` and returns
it without ever reading its `success` flag; on an error response it throws
with the collaborator's `message` when present, else the stringified body;
a `ZodError` or network error is rethrown with the processing prefix. -/
def issueBoleta (_boletaData : BoletaPayload) (resp : PostResult) :
    Except String IssueResponse :=
  match resp with
  | .success (.wellFormed r) => .ok r
  | .success (.malformed desc) =>
    .error ("Error al procesar la respuesta o de red: " ++ desc)
  | .httpError message raw =>
    let apiMessage := match message with | some m => m | none => raw
    .error ("Error de la API de facturación: " ++ apiMessage)
  | .networkError m =>
    .error ("Error al procesar la respuesta o de red: " ++ m)

/-- The `lastIssuedBoleta` record kept by `BoletaForm`. -/
structure LastIssuedBoleta where
  id : Int
  numero_completo : String
deriving DecidableEq, Repr

/-- A toast notification (title, description, variant). -/
structure Toast where
  title : String
  description : String
  variant : String
deriving DecidableEq, Repr

/-- The line-item transformation performed in `onSubmit` before submission:
`mto_valor_unitario` is replaced by its tax-exclusive base value. -/
def processDetail (d : Detalle) : Detalle :=
  { d with mto_valor_unitario := calculateBaseValue d.mto_valor_unitario d.porcentaje_igv }

/-- The payload built in `onSubmit`: the form data with processed line items
and the fixed `COMPANY_ID = 1`, `BRANCH_ID = 1`. -/
def buildPayload (data : BoletaFormValues) : BoletaPayload :=
  { data with detalles := data.detalles.map processDetail, company_id := 1, branch_id := 1 }

/-- Observable outcome of one run of the form's `onSubmit` handler. -/
structure SubmitOutcome where
  lastIssuedBoleta : Option LastIssuedBoleta
  isSubmitting : Bool
  toasts : List Toast
  issueCalls : Nat
  pdfCalls : Nat
  payload : BoletaPayload
deriving DecidableEq, Repr

/-- Shallow embedding of `onSubmit` in `BoletaForm`
(`src/components/invoicing/BoletaForm.tsx`). `resp` is the collaborator's
response to the single `POST /boletas` this handler performs, `pdfResult`
the outcome of the follow-up `generateBoletaPdf` call (only reached on a
successful issuance; its failure is caught inside `handleGeneratePdf` and
reported as a toast without rolling anything back). -/
def onSubmit (data : BoletaFormValues) (resp : PostResult)
    (pdfResult : Except String Unit) : SubmitOutcome :=
  let payload := buildPayload data
  match issueBoleta payload resp with
  | .ok result =>
    let pdfToast : Toast :=
      match pdfResult with
      | .ok _ =>
        { title := "Generación de PDF Solicitada",
          description := "El PDF se está generando. Podrá descargarlo en breve.",
          variant := "success" }
      | .error m =>
        { title := "Error de PDF", description := m, variant := "destructive" }
    let successToast : Toast :=
      { title := "Boleta Emitida con Éxito",
        description := "Documento " ++ result.data.numero_completo ++ " procesado y enviado a SUNAT.",
        variant := "success" }
    { lastIssuedBoleta := some { id := result.data.id, numero_completo := result.data.numero_completo },
      isSubmitting := false,
      toasts := [pdfToast, successToast],
      issueCalls := 1, pdfCalls := 1, payload := payload }
  | .error m =>
    { lastIssuedBoleta := none,
      isSubmitting := false,
      toasts := [{ title := "Error de Emisión", description := m, variant := "destructive" }],
      issueCalls := 1, pdfCalls := 0, payload := payload }

/-- Result of a submission attempt through the form gate. -/
structure FormSubmitResult where
  errors : List String
  outcome : Option SubmitOutcome
deriving DecidableEq, Repr

/-- Total number of `POST /boletas` calls a submission attempt performed. -/
def FormSubmitResult.issueCalls (r : FormSubmitResult) : Nat :=
  match r.outcome with
  | some o => o.issueCalls
  | none => 0

/-- Embedding of `form.handleSubmit(onSubmit)` with
`resolver: zodResolver(BoletaPayloadSchema.omit({company_id, branch_id}))`:
react-hook-form runs the zod schema first and invokes `onSubmit` only when
it reports no issues; otherwise the field-level messages are rendered and
no handler (hence no network call) runs. -/
def handleFormSubmit (data : BoletaFormValues) (resp : PostResult)
    (pdfResult : Except String Unit) : FormSubmitResult :=
  let errs := boletaErrors data
  if errs = [] then
    { errors := [], outcome := some (onSubmit data resp pdfResult) }
  else
    { errors := errs, outcome := none }

/-- C5: the Access Gate check `isAuthorized(resourcePath, permissionSet)` is
a pure total function (it is a Lean function by construction) that returns
`false` for every `resourcePath` when `permissionSet` is `none`, and
`false` whenever `resourcePath` is absent from the set. -/
theorem C5_isAuthorized_gate :
    (∀ p : String, isAuthorized p none = false) ∧
    (∀ (p : String) (s : Finset String), p ∉ s → isAuthorized p (some s) = false) := by
  constructor
  · intro p
    rfl
  · intro p s hp
    simp [isAuthorized, hp]

/-- Witness for C5 at concrete inputs. -/
theorem C5_isAuthorized_gate_witness :
    isAuthorized "/people" none = false ∧
    isAuthorized "/people" (some {"/"}) = false :=
  ⟨C5_isAuthorized_gate.1 "/people",
   C5_isAuthorized_gate.2 "/people" {"/"} (by decide)⟩

/-- C1: the resolver's effective permission set contains the root path iff
the actor has at least one allowed grant. (1) With zero role memberships the
resulting set is empty, so the root path is not granted. (2) When the
grant query runs and returns at least one allowed path, the result contains
the root path `/` and every granted path. (3) Adding the root is idempotent. -/
theorem C1_root_path_policy :
    (∀ (env : FetchEnv) (st : UserState) (uid : Nat),
      env.authUser = some uid → env.userRolesResult = .ok [] →
      ∃ S, (fetchUserAndRolesAndPermissions env st).state.permissions = some S ∧
        S = ∅ ∧ "/" ∉ S) ∧
    (∀ (env : FetchEnv) (st : UserState) (uid : Nat)
      (rows : List UserRoleRow) (paths : List String),
      env.authUser = some uid → env.userRolesResult = .ok rows →
      extractRoleNames rows ≠ [] → extractRoleIds rows ≠ [] →
      env.permissionsResult = .ok paths → paths ≠ [] →
      ∃ S, (fetchUserAndRolesAndPermissions env st).state.permissions = some S ∧
        "/" ∈ S ∧ ∀ p ∈ paths, p ∈ S) ∧
    (∀ s : Finset String, addRootIfNonempty (addRootIfNonempty s) = addRootIfNonempty s) := by
  refine ⟨?_, ?_, ?_⟩
  · intro env st uid h1 h2
    refine ⟨∅, ?_, rfl, by simp⟩
    simp [fetchUserAndRolesAndPermissions, h1, h2, extractRoleNames]
  · intro env st uid rows paths h1 h2 hnames hids h3 hpaths
    refine ⟨addRootIfNonempty paths.toFinset, ?_, ?_, ?_⟩
    · simp [fetchUserAndRolesAndPermissions, h1, h2, h3, hnames, hids]
    · obtain ⟨p, hp⟩ := List.exists_mem_of_ne_nil paths hpaths
      have hcard : 0 < paths.toFinset.card :=
        Finset.card_pos.mpr ⟨p, List.mem_toFinset.mpr hp⟩
      simp [addRootIfNonempty, hcard]
    · intro p hp
      have hcard : 0 < paths.toFinset.card :=
        Finset.card_pos.mpr ⟨p, List.mem_toFinset.mpr hp⟩
      simp only [addRootIfNonempty, if_pos hcard]
      exact Finset.mem_insert_of_mem (List.mem_toFinset.mpr hp)
  · intro s
    by_cases h : 0 < s.card
    · have h2 : 0 < (insert "/" s).card :=
        Finset.card_pos.mpr ⟨"/", Finset.mem_insert_self _ _⟩
      simp [addRootIfNonempty, h, h2, Finset.insert_idem]
    · simp [addRootIfNonempty, h]

/-- Witness for C1: an actor with no role memberships gets the empty set; an
actor with one role and one allowed grant on `/people` gets a set holding
`/` and `/people`. -/
theorem C1_root_path_policy_witness :
    (∃ S, (fetchUserAndRolesAndPermissions ⟨some 1, .ok [], .ok []⟩
        initialUserState).state.permissions = some S ∧ S = ∅ ∧ "/" ∉ S) ∧
    (∃ S, (fetchUserAndRolesAndPermissions
        ⟨some 1, .ok [⟨some ⟨1, "admin"⟩⟩], .ok ["/people"]⟩
        initialUserState).state.permissions = some S ∧
      "/" ∈ S ∧ ∀ p ∈ ["/people"], p ∈ S) :=
  ⟨C1_root_path_policy.1 _ initialUserState 1 rfl rfl,
   C1_root_path_policy.2.1 _ initialUserState 1 [⟨some ⟨1, "admin"⟩⟩] ["/people"]
     rfl rfl (by decide) (by decide) rfl (by decide)⟩

/-- C2 (amended): every failure of the role fetch or the permission fetch
aborts resolution (on a role-fetch failure the permission query is never
issued) and fail-closes the state (`roles` and `permissions` both cleared to
`none`, never partial or broader access); however the failure is only
written to the console log — the resolver's catch-all swallows it, so the
caller-visible channel (`surfaced`) carries no error. -/
theorem C2_fail_closed :
    (∀ (env : FetchEnv) (st : UserState) (uid : Nat) (e : DbError),
      env.authUser = some uid → env.userRolesResult = .error e →
      (fetchUserAndRolesAndPermissions env st).state.roles = none ∧
      (fetchUserAndRolesAndPermissions env st).state.permissions = none ∧
      (fetchUserAndRolesAndPermissions env st).permFetches = 0 ∧
      (fetchUserAndRolesAndPermissions env st).consoleErrors ≠ [] ∧
      (fetchUserAndRolesAndPermissions env st).surfaced = none) ∧
    (∀ (env : FetchEnv) (st : UserState) (uid : Nat)
      (rows : List UserRoleRow) (e : DbError),
      env.authUser = some uid → env.userRolesResult = .ok rows →
      extractRoleNames rows ≠ [] → extractRoleIds rows ≠ [] →
      env.permissionsResult = .error e →
      (fetchUserAndRolesAndPermissions env st).state.roles = none ∧
      (fetchUserAndRolesAndPermissions env st).state.permissions = none ∧
      (fetchUserAndRolesAndPermissions env st).consoleErrors ≠ [] ∧
      (fetchUserAndRolesAndPermissions env st).surfaced = none) := by
  constructor
  · intro env st uid e h1 h2
    simp [fetchUserAndRolesAndPermissions, h1, h2]
  · intro env st uid rows e h1 h2 hnames hids h3
    simp [fetchUserAndRolesAndPermissions, h1, h2, h3, hnames, hids]

/-- Witness for C2 (amended) at concrete failing fetches. -/
theorem C2_fail_closed_witness :
    ((fetchUserAndRolesAndPermissions ⟨some 1, .error ⟨"500", "connection reset"⟩, .ok []⟩
        initialUserState).state.roles = none ∧
      (fetchUserAndRolesAndPermissions ⟨some 1, .error ⟨"500", "connection reset"⟩, .ok []⟩
        initialUserState).state.permissions = none ∧
      (fetchUserAndRolesAndPermissions ⟨some 1, .error ⟨"500", "connection reset"⟩, .ok []⟩
        initialUserState).permFetches = 0 ∧
      (fetchUserAndRolesAndPermissions ⟨some 1, .error ⟨"500", "connection reset"⟩, .ok []⟩
        initialUserState).consoleErrors ≠ [] ∧
      (fetchUserAndRolesAndPermissions ⟨some 1, .error ⟨"500", "connection reset"⟩, .ok []⟩
        initialUserState).surfaced = none) ∧
    ((fetchUserAndRolesAndPermissions
        ⟨some 1, .ok [⟨some ⟨1, "admin"⟩⟩], .error ⟨"500", "timeout"⟩⟩
        initialUserState).state.roles = none ∧
      (fetchUserAndRolesAndPermissions
        ⟨some 1, .ok [⟨some ⟨1, "admin"⟩⟩], .error ⟨"500", "timeout"⟩⟩
        initialUserState).state.permissions = none ∧
      (fetchUserAndRolesAndPermissions
        ⟨some 1, .ok [⟨some ⟨1, "admin"⟩⟩], .error ⟨"500", "timeout"⟩⟩
        initialUserState).consoleErrors ≠ [] ∧
      (fetchUserAndRolesAndPermissions
        ⟨some 1, .ok [⟨some ⟨1, "admin"⟩⟩], .error ⟨"500", "timeout"⟩⟩
        initialUserState).surfaced = none) :=
  ⟨C2_fail_closed.1 _ initialUserState 1 ⟨"500", "connection reset"⟩ rfl rfl,
   C2_fail_closed.2 _ initialUserState 1 [⟨some ⟨1, "admin"⟩⟩] ⟨"500", "timeout"⟩
     rfl rfl (by decide) (by decide) rfl⟩

/-- C2 counterexample: at a concrete failing role fetch, the failure never
reaches the caller — the returned promise resolves normally (`surfaced =
none`) and the error only lands in the console log, so the claim's
"surfaced to the caller as a reportable error rather than silently
swallowed" is false of the source. -/
theorem C2_counterexample :
    (fetchUserAndRolesAndPermissions ⟨some 1, .error ⟨"500", "connection reset"⟩, .ok []⟩
      initialUserState).surfaced = none ∧
    (fetchUserAndRolesAndPermissions ⟨some 1, .error ⟨"500", "connection reset"⟩, .ok []⟩
      initialUserState).consoleErrors =
      ["Error fetching user roles: connection reset",
       "Global error fetching user, roles, or permissions: connection reset"] := by
  constructor <;> rfl

/-- C4 counterexample: a `TOKEN_REFRESHED` auth event carrying the same
actor identifier as the one currently held does trigger a full
role/permission re-fetch (fetch call count 1, not 0), because the source
only short-circuits when the event is literally `SIGNED_IN`. -/
theorem C4_counterexample :
    (onAuthStateChange "TOKEN_REFRESHED" (some 7)
      { user := some 7, roles := some ["admin"],
        permissions := some {"/", "/people"}, loading := false }).2 = 1 := by
  rfl

/-- C4 (amended): only a `SIGNED_IN` event with the currently held actor
identifier is treated as a session revalidation — it updates the Actor
record alone, leaves roles and permissions untouched, and performs zero
role/permission fetches; any other event kind carrying a session (for
example `TOKEN_REFRESHED`) triggers a full re-fetch even for the same
identifier. -/
theorem C4_same_user_revalidation :
    (∀ (st : UserState) (suid : Nat), st.user = some suid →
      (onAuthStateChange "SIGNED_IN" (some suid) st).2 = 0 ∧
      (onAuthStateChange "SIGNED_IN" (some suid) st).1.user = some suid ∧
      (onAuthStateChange "SIGNED_IN" (some suid) st).1.roles = st.roles ∧
      (onAuthStateChange "SIGNED_IN" (some suid) st).1.permissions = st.permissions) ∧
    (∀ (st : UserState) (suid : Nat) (event : String), st.user = some suid →
      event ≠ "SIGNED_IN" →
      (onAuthStateChange event (some suid) st).2 = 1) := by
  constructor
  · intro st suid h
    simp [onAuthStateChange, h]
  · intro st suid event h hev
    simp [onAuthStateChange, h, hev]

/-- Witness for C4 (amended): a same-user `SIGNED_IN` performs no fetch and
keeps role/permission state; a same-user `TOKEN_REFRESHED` performs one. -/
theorem C4_same_user_revalidation_witness :
    ((onAuthStateChange "SIGNED_IN" (some 7)
        { user := some 7, roles := some ["admin"],
          permissions := some {"/", "/people"}, loading := false }).2 = 0 ∧
      (onAuthStateChange "SIGNED_IN" (some 7)
        { user := some 7, roles := some ["admin"],
          permissions := some {"/", "/people"}, loading := false }).1.user = some 7 ∧
      (onAuthStateChange "SIGNED_IN" (some 7)
        { user := some 7, roles := some ["admin"],
          permissions := some {"/", "/people"}, loading := false }).1.roles = some ["admin"] ∧
      (onAuthStateChange "SIGNED_IN" (some 7)
        { user := some 7, roles := some ["admin"],
          permissions := some {"/", "/people"}, loading := false }).1.permissions =
        some {"/", "/people"}) ∧
    (onAuthStateChange "TOKEN_REFRESHED" (some 7)
      { user := some 7, roles := some ["admin"],
        permissions := some {"/", "/people"}, loading := false }).2 = 1 :=
  ⟨C4_same_user_revalidation.1
      { user := some 7, roles := some ["admin"],
        permissions := some {"/", "/people"}, loading := false } 7 rfl,
   C4_same_user_revalidation.2
      { user := some 7, roles := some ["admin"],
        permissions := some {"/", "/people"}, loading := false } 7
      "TOKEN_REFRESHED" rfl (by decide)⟩

/-- Soundness of the segment model: running one resolution's segments
uninterrupted reproduces exactly the state computed by
`fetchUserAndRolesAndPermissions`. -/
theorem resolveSegments_run (env : FetchEnv) (st : UserState) :
    runActions st (resolveSegments env).flatten =
      (fetchUserAndRolesAndPermissions env st).state := by
  obtain ⟨au, ur, pr⟩ := env
  cases au with
  | none => rfl
  | some uid =>
    cases ur with
    | error e => rfl
    | ok rows =>
      by_cases h1 : extractRoleNames rows = [] <;>
        by_cases h2 : extractRoleIds rows = [] <;>
          cases pr <;>
            simp [resolveSegments, fetchUserAndRolesAndPermissions, runActions,
              applyAction, h1, h2]

/-- Collaborator responses for a resolution of actor 1 (one role `admin`,
one allowed grant `/people`). -/
def envA : FetchEnv :=
  ⟨some 1, .ok [⟨some ⟨1, "admin"⟩⟩], .ok ["/people"]⟩

/-- Collaborator responses for a resolution of actor 2 (one role `files`,
one allowed grant `/accounts`). -/
def envB : FetchEnv :=
  ⟨some 2, .ok [⟨some ⟨2, "files"⟩⟩], .ok ["/accounts"]⟩

theorem resolveSegments_envA :
    resolveSegments envA =
      [[.setLoading true],
       [.setUser (some 1)],
       [.setRoles (some ["admin"])],
       [.setPermissions (some {"/", "/people"}), .setLoading false]] := by
  decide

theorem authChangeSegments_envB :
    authChangeSegments 2 envB =
      [[.setUser (some 2), .setLoading true],
       [.setUser (some 2)],
       [.setRoles (some ["files"])],
       [.setPermissions (some {"/", "/accounts"}), .setLoading false]] := by
  decide

/-- The schedule in which actor 1's resolution is suspended at its last
`await` (the permission query), the auth listener then observes a sign-in
of actor 2 whose resolution runs to completion, and finally actor 1's stale
continuation resumes and writes its permission set. -/
def staleSchedule : List (List Action) :=
  [[.setLoading true],
   [.setUser (some 1)],
   [.setRoles (some ["admin"])],
   [.setUser (some 2), .setLoading true],
   [.setUser (some 2)],
   [.setRoles (some ["files"])],
   [.setPermissions (some {"/", "/accounts"}), .setLoading false],
   [.setPermissions (some {"/", "/people"}), .setLoading false]]

/-- C3 counterexample: `staleSchedule` is a legal event-loop interleaving of
actor 1's resolution with the auth-change handling for actor 2, yet after it
runs the Session Store holds actor 2 together with actor 1's permission set
`{/, /people}` — not actor 2's own resolved set `{/, /accounts}`. The
reachable state reflects two different actors, refuting the claim that a
stale resolution result is discarded. -/
theorem C3_counterexample :
    Interleave (resolveSegments envA) (authChangeSegments 2 envB) staleSchedule ∧
    (runActions initialUserState staleSchedule.flatten).user = some 2 ∧
    (runActions initialUserState staleSchedule.flatten).permissions =
      some {"/", "/people"} ∧
    (fetchUserAndRolesAndPermissions envB initialUserState).state.permissions =
      some {"/", "/accounts"} ∧
    ({"/", "/people"} : Finset String) ≠ {"/", "/accounts"} := by
  refine ⟨?_, rfl, rfl, by decide, by decide⟩
  rw [resolveSegments_envA, authChangeSegments_envB]
  exact .left (.left (.left (.right (.right (.right (.right (.left .nil)))))))

/-- C3 (amended): the source has no stale-result protection. There exists a
legal interleaving of a resolution for actor 1 with a subsequent sign-in of
actor 2 after which the store's user field holds actor 2 while its
permission field holds actor 1's resolved set, which differs from actor 2's
resolved set: the stale result is applied, not discarded. -/
theorem C3_stale_overwrite :
    ∃ zs, Interleave (resolveSegments envA) (authChangeSegments 2 envB) zs ∧
      (runActions initialUserState zs.flatten).user = envB.authUser ∧
      (runActions initialUserState zs.flatten).permissions =
        (fetchUserAndRolesAndPermissions envA initialUserState).state.permissions ∧
      (fetchUserAndRolesAndPermissions envA initialUserState).state.permissions ≠
        (fetchUserAndRolesAndPermissions envB initialUserState).state.permissions := by
  refine ⟨staleSchedule, ?_, by decide, by decide, by decide⟩
  rw [resolveSegments_envA, authChangeSegments_envB]
  exact .left (.left (.left (.right (.right (.right (.right (.left .nil)))))))

/-- C6 counterexample: at tax-inclusive value 0.125 and tax percentage 0,
`calculateBaseValue` returns the input unchanged (0.125, three decimal
places) while the claimed formula `total / (1 + taxPercent/100)` rounded to
2 decimal places yields 0.13 — the source skips the rounding entirely when
the tax percentage is zero. -/
theorem C6_counterexample :
    calculateBaseValue (1 / 8) 0 ≠ specBaseValue (1 / 8) 0 ∧
    calculateBaseValue (1 / 8) 0 = 1 / 8 ∧
    specBaseValue (1 / 8) 0 = 13 / 100 := by
  have h : ⌊((1 : ℚ) / 8 / (1 + 0 / 100) * 100 + 1 / 2)⌋ = 13 := by
    apply Int.floor_eq_iff.mpr
    constructor <;> norm_num
  have h2 : specBaseValue (1 / 8) 0 = 13 / 100 := by
    unfold specBaseValue toFixed2
    norm_num [h]
  have h1 : calculateBaseValue (1 / 8) 0 = 1 / 8 := by
    unfold calculateBaseValue
    norm_num
  refine ⟨?_, h1, h2⟩
  rw [h1, h2]
  norm_num

/-- C6 (amended): for every line item the submitted payload carries
`calculateBaseValue` of the entered value; for every nonzero tax percentage
this equals the spec's `total / (1 + taxPercent/100)` rounded to 2 decimal
places (a zero tax percentage passes the value through unrounded); and in
particular a tax-inclusive value of 250.00 at 18% yields exactly 211.86. -/
theorem C6_base_value_conversion :
    (∀ (data : BoletaFormValues) (resp : PostResult) (pdfR : Except String Unit),
      (onSubmit data resp pdfR).payload.detalles = data.detalles.map processDetail) ∧
    (∀ total tax : ℚ, tax ≠ 0 → calculateBaseValue total tax = specBaseValue total tax) ∧
    (∀ total : ℚ, calculateBaseValue total 0 = total) ∧
    calculateBaseValue 250 18 = 211.86 := by
  refine ⟨?_, ?_, ?_, ?_⟩
  · intro data resp pdfR
    simp only [onSubmit]
    cases h : issueBoleta (buildPayload data) resp <;> simp [h, buildPayload]
  · intro total tax h
    simp [calculateBaseValue, specBaseValue, h]
  · intro total
    simp [calculateBaseValue]
  · have h : ⌊((250 : ℚ) / (1 + 18 / 100) * 100 + 1 / 2)⌋ = 21186 := by
      apply Int.floor_eq_iff.mpr
      constructor <;> norm_num
    unfold calculateBaseValue toFixed2
    norm_num [h]

/-- Witness for C6 (amended) at tax percentage 18 (nonzero). -/
theorem C6_base_value_conversion_witness :
    calculateBaseValue 250 18 = specBaseValue 250 18 :=
  C6_base_value_conversion.2.1 250 18 (by norm_num)

/-- C7: any boleta form value violating the data-model invariants — no line
item, a line item whose quantity is not strictly positive, or a line item
with a negative unit value — fails schema validation with at least one
field-level message, the handler is never invoked, and zero submission
calls are made. -/
theorem C7_validation_gate (b : BoletaFormValues) (resp : PostResult)
    (pdfR : Except String Unit)
    (h : b.detalles = [] ∨ (∃ d ∈ b.detalles, d.cantidad ≤ 0) ∨
      (∃ d ∈ b.detalles, d.mto_valor_unitario < 0)) :
    boletaErrors b ≠ [] ∧ (handleFormSubmit b resp pdfR).outcome = none ∧
    (handleFormSubmit b resp pdfR).issueCalls = 0 := by
  have herr : boletaErrors b ≠ [] := by
    rcases h with h | ⟨d, hd, hq⟩ | ⟨d, hd, hv⟩
    · apply List.ne_nil_of_mem (a := "Debe haber al menos un detalle.")
      unfold boletaErrors
      rw [h]
      simp
    · have hmsg : "Cantidad debe ser mayor a 0." ∈ detalleErrors d := by
        simp only [detalleErrors, List.mem_append]
        have hq2 : ¬(1 / 100 : ℚ) ≤ d.cantidad := by
          intro hc
          linarith
        rw [if_neg hq2]
        simp
      apply List.ne_nil_of_mem (a := "Cantidad debe ser mayor a 0.")
      unfold boletaErrors
      simp only [List.mem_append]
      exact Or.inr (List.mem_flatten.mpr
        ⟨detalleErrors d, List.mem_map_of_mem detalleErrors hd, hmsg⟩)
    · have hmsg : "Precio debe ser 0 o mayor." ∈ detalleErrors d := by
        simp only [detalleErrors, List.mem_append]
        rw [if_neg (not_le.mpr hv)]
        simp
      apply List.ne_nil_of_mem (a := "Precio debe ser 0 o mayor.")
      unfold boletaErrors
      simp only [List.mem_append]
      exact Or.inr (List.mem_flatten.mpr
        ⟨detalleErrors d, List.mem_map_of_mem detalleErrors hd, hmsg⟩)
  refine ⟨herr, ?_, ?_⟩ <;>
    simp [handleFormSubmit, FormSubmitResult.issueCalls, herr]

/-- A syntactically complete boleta form value whose line-item list is
empty, used to witness the validation gate. -/
def emptyDetallesForm : BoletaFormValues :=
  { serie := "B001", fecha_emision := "2025-07-28", moneda := "PEN",
    tipo_operacion := "0101", metodo_envio := "resumen_diario",
    forma_pago_tipo := "Contado", usuario_creacion := "admin_user",
    client := { id := none, tipo_documento := "1", numero_documento := "12345678",
                razon_social := "Juan Pérez", nombre_comercial := "Juan Pérez",
                direccion := "Av. Los Negocios 456", ubigeo := "", distrito := "",
                provincia := "", departamento := "", telefono := "", email := "" },
    detalles := [] }

/-- Witness for C7: a request with zero line items yields validation errors
and zero submission calls. -/
theorem C7_validation_gate_witness :
    boletaErrors emptyDetallesForm ≠ [] ∧
    (handleFormSubmit emptyDetallesForm (.networkError "unreachable") (.ok ())).outcome = none ∧
    (handleFormSubmit emptyDetallesForm (.networkError "unreachable") (.ok ())).issueCalls = 0 :=
  C7_validation_gate emptyDetallesForm (.networkError "unreachable") (.ok ())
    (Or.inl rfl)

/-- C8: `fetchClientByDocument` returns `none` with zero database queries
for every document number shorter than 8 characters; for long-enough input
a missing row is the normal `none` result of one query, while a database
failure is surfaced as a thrown `Error de base de datos:` message — an
error value distinct from the `none` result. The embedding is a pure
function of its inputs (no side effects). -/
theorem C8_findByDocument_contract :
    (∀ (doc : String) (db : DbSingleResult), doc.length < 8 →
      fetchClientByDocument doc db = (.ok none, 0)) ∧
    (∀ doc : String, 8 ≤ doc.length →
      fetchClientByDocument doc .noRows = (.ok none, 1)) ∧
    (∀ doc code msg : String, 8 ≤ doc.length →
      fetchClientByDocument doc (.failure code msg) =
        (.error ("Error de base de datos: " ++ ("Error de base de datos: " ++ msg)), 1)) := by
  refine ⟨?_, ?_, ?_⟩
  · intro doc db h
    simp [fetchClientByDocument, h]
  · intro doc h
    have hc : ¬(doc = "" ∨ doc.length < 8) := by
      push_neg
      refine ⟨?_, by omega⟩
      intro he
      subst he
      exact absurd h (by decide)
    simp [fetchClientByDocument, hc]
  · intro doc code msg h
    have hc : ¬(doc = "" ∨ doc.length < 8) := by
      push_neg
      refine ⟨?_, by omega⟩
      intro he
      subst he
      exact absurd h (by decide)
    simp [fetchClientByDocument, hc]

/-- Witness for C8 at concrete document numbers. -/
theorem C8_findByDocument_contract_witness :
    fetchClientByDocument "1234567" (.failure "500" "down") = (.ok none, 0) ∧
    fetchClientByDocument "12345678" .noRows = (.ok none, 1) ∧
    fetchClientByDocument "12345678" (.failure "500" "down") =
      (.error ("Error de base de datos: " ++ ("Error de base de datos: " ++ "down")), 1) :=
  ⟨C8_findByDocument_contract.1 "1234567" (.failure "500" "down") (by decide),
   C8_findByDocument_contract.2.1 "12345678" (by decide),
   C8_findByDocument_contract.2.2 "12345678" "500" "down" (by decide)⟩

/-- C9: every failed submission leaves no issued document behind
(`lastIssuedBoleta` stays `none`), performs exactly one submission call and
no PDF call (no automatic retry), clears the submitting flag so the user
can resubmit, and surfaces an error toast whose message carries the
collaborator's message when one is available (for a response-less network
failure, the generic processing prefix with the transport message). -/
theorem C9_issuance_failure :
    (∀ (data : BoletaFormValues) (pdfR : Except String Unit) (m raw : String),
      (onSubmit data (.httpError (some m) raw) pdfR).lastIssuedBoleta = none ∧
      (onSubmit data (.httpError (some m) raw) pdfR).isSubmitting = false ∧
      (onSubmit data (.httpError (some m) raw) pdfR).issueCalls = 1 ∧
      (onSubmit data (.httpError (some m) raw) pdfR).pdfCalls = 0 ∧
      (onSubmit data (.httpError (some m) raw) pdfR).toasts =
        [⟨"Error de Emisión", "Error de la API de facturación: " ++ m, "destructive"⟩]) ∧
    (∀ (data : BoletaFormValues) (pdfR : Except String Unit) (raw : String),
      (onSubmit data (.httpError none raw) pdfR).toasts =
        [⟨"Error de Emisión", "Error de la API de facturación: " ++ raw, "destructive"⟩]) ∧
    (∀ (data : BoletaFormValues) (pdfR : Except String Unit) (m : String),
      (onSubmit data (.networkError m) pdfR).lastIssuedBoleta = none ∧
      (onSubmit data (.networkError m) pdfR).isSubmitting = false ∧
      (onSubmit data (.networkError m) pdfR).issueCalls = 1 ∧
      (onSubmit data (.networkError m) pdfR).pdfCalls = 0 ∧
      (onSubmit data (.networkError m) pdfR).toasts =
        [⟨"Error de Emisión", "Error al procesar la respuesta o de red: " ++ m, "destructive"⟩]) := by
  refine ⟨?_, ?_, ?_⟩ <;> intro data pdfR <;> intros <;>
    simp [onSubmit, issueBoleta]

/-- C10: `issueBoleta` returns every well-shaped successful-status body
as-is without inspecting the `success` flag — a body with `success = false`
still produces a stored issued document and triggers the PDF request —
while a successful-status body that fails `IssueResponseSchema` raises an
error and nothing is stored. -/
theorem C10_success_flag_ignored :
    (∀ (payload : BoletaPayload) (r : IssueResponse),
      issueBoleta payload (.success (.wellFormed r)) = .ok r) ∧
    (∀ (data : BoletaFormValues) (pdfR : Except String Unit) (r : IssueResponse),
      r.success = false →
      (onSubmit data (.success (.wellFormed r)) pdfR).lastIssuedBoleta =
        some ⟨r.data.id, r.data.numero_completo⟩ ∧
      (onSubmit data (.success (.wellFormed r)) pdfR).pdfCalls = 1) ∧
    (∀ (data : BoletaFormValues) (pdfR : Except String Unit) (desc : String),
      issueBoleta (buildPayload data) (.success (.malformed desc)) =
        .error ("Error al procesar la respuesta o de red: " ++ desc) ∧
      (onSubmit data (.success (.malformed desc)) pdfR).lastIssuedBoleta = none) := by
  refine ⟨?_, ?_, ?_⟩
  · intro payload r
    rfl
  · intro data pdfR r _
    constructor <;> simp [onSubmit, issueBoleta]
  · intro data pdfR desc
    constructor <;> simp [onSubmit, issueBoleta]

/-- Witness for C10 at a concrete body `{success: false, message: "rejected",
data: {id: 42, numero_completo: "B001-00042"}}`. -/
theorem C10_success_flag_ignored_witness :
    (onSubmit emptyDetallesForm
        (.success (.wellFormed ⟨false, "rejected", ⟨42, "B001-00042"⟩⟩))
        (.ok ())).lastIssuedBoleta = some ⟨42, "B001-00042"⟩ ∧
    (onSubmit emptyDetallesForm
        (.success (.wellFormed ⟨false, "rejected", ⟨42, "B001-00042"⟩⟩))
        (.ok ())).pdfCalls = 1 :=
  C10_success_flag_ignored.2.1 emptyDetallesForm (.ok ())
    ⟨false, "rejected", ⟨42, "B001-00042"⟩⟩ rfl

end Dashboard
